import Mathlib

/-!
Verification of the render-loop core of the quanta voxel viewer
(`src/client.rs`, `Client::game_loop`).

The loop body is shallowly embedded as a step function over an explicit
state. Everything the loop observes from the outside world in one
iteration (swapchain recreation outcome, image-acquisition outcome, the
fallible vulkano calls, channel send/receive results, input events, the
camera position after integration) is collected in an `EnvInput` record,
so one `stepBody` application models one loop iteration for an arbitrary
environment, and a list of `EnvInput`s models an arbitrary execution.

Observable effects (GPU work submitted, fence waits, buffer writes,
messages sent and received) are emitted as a trace of `TraceEvent`s; a
Rust `panic!` / `.unwrap()` failure is modelled by the `panicked` result,
which terminates the run.
-/

namespace Quanta

/-- 3-component vector of world units. Positions are only ever copied and
compared by the loop (never arithmetically combined), so integer
components model the `Vector3` payloads faithfully. -/
abbrev Vec3 := Int × Int × Int

/-- Modelled from the spec: `ClientMessage` is declared in `crate::common`,
which is not under `src/`; the spec fixes exactly two shapes on the wire:
`PlayerMove(position)` and `Submit(command, origin, rootSize)`. The upload
command is opaque to the render loop; a `Nat` identifier stands for it.
The `rootSize` scalar is only copied, so a rational models the `f32`. -/
inductive ClientMessage where
  | PlayerMove (pos : Vec3)
  | Submit (cmd : Nat) (origin : Vec3) (rootSize : Rat)
deriving DecidableEq

/-- A device operation chained on the current `GpuFuture`. -/
inductive GpuOp where
  | draw
  | present
  | write (cmd : Nat)
deriving DecidableEq

/-- Observable events emitted by one loop iteration, in program order. -/
inductive TraceEvent where
  /-- `self.window.recreate()` was called. -/
  | recreateCall
  /-- `self.window.frame()` (image acquisition) was called. -/
  | acquire
  /-- push constants were computed from these origin / root-size values
      (`self.cam.push(origin.into(), root_size)`). -/
  | pushed (origin : Vec3) (rootSize : Rat)
  /-- the per-frame draw command buffer was chained onto the device queue
      (`then_execute` succeeded). -/
  | drawSub
  /-- a blocking fence wait completed
      (`then_signal_fence_and_flush().unwrap().wait(None).unwrap()`). -/
  | fenceWait
  /-- the worker-provided upload command was executed on the device queue
      (`cmd.execute(queue)`): the one write to the tree buffer. -/
  | writeExec (cmd : Nat)
  /-- `ClientMessage::PlayerMove(pos)` was sent to the worker. -/
  | sendMove (pos : Vec3)
  /-- a `ClientMessage::Submit` was received and is being applied. -/
  | recvSubmit (cmd : Nat) (origin : Vec3) (rootSize : Rat)
deriving DecidableEq

/-- Result of `self.window.frame()` (vulkano `acquire_next_image`). -/
inductive AcquireRes where
  | ok
  | outOfDate
  | otherErr
deriving DecidableEq

/-- Result of the per-frame `then_signal_fence_and_flush()`. -/
inductive FlushRes where
  | ok
  | outOfDate
  | otherErr
deriving DecidableEq

/-- Result of `self.world.1.try_recv()`: a message, `TryRecvError::Empty`,
or `TryRecvError::Disconnected`. -/
inductive RecvRes where
  | msg (m : ClientMessage)
  | empty
  | disconnected
deriving DecidableEq

/-- Window events drained by `self.queue.poll` (modelled from the spec:
`crate::event` is not under `src/`; the loop only distinguishes resize,
quit and everything else). -/
inductive Event where
  | Resize (w h : Nat)
  | Quit
  | Other
deriving DecidableEq

/-- The render-loop state threaded through iterations of `game_loop`:
the current `GpuFuture` chain (`future`), the `recreate_swapchain` flag,
`origin` and `root_size` as used for push constants, the camera position,
and the diagnostic counter `i`. -/
structure LoopState where
  future : List GpuOp
  recreate_swapchain : Bool
  origin : Vec3
  root_size : Rat
  camPos : Vec3
  i : Nat
deriving DecidableEq

/-- Everything one iteration observes from outside the loop. Each `…Ok`
flag tells whether the corresponding fallible call succeeds (`false`
makes the source's `.unwrap()` panic, or takes the error branch where the
source matches on the error). -/
structure EnvInput where
  /-- outcome of `self.window.recreate()`. -/
  recreateOk : Bool
  /-- outcome of `self.window.frame()`. -/
  frameRes : AcquireRes
  /-- `AutoCommandBufferBuilder::primary_one_time_submit(..)`. -/
  cbPrimaryOk : Bool
  /-- `.begin_render_pass(..)`. -/
  cbBeginOk : Bool
  /-- `.draw(..)`. -/
  cbDrawOk : Bool
  /-- `.end_render_pass()`. -/
  cbEndOk : Bool
  /-- `.build()`. -/
  cbBuildOk : Bool
  /-- `.then_execute(queue, command_buffer)`. -/
  thenExecOk : Bool
  /-- the per-frame `then_signal_fence_and_flush()` outcome. -/
  flushRes : FlushRes
  /-- `self.world.0.send(..)` outcome. -/
  sendOk : Bool
  /-- `self.world.1.try_recv()` outcome. -/
  recvRes : RecvRes
  /-- first `then_signal_fence_and_flush()` in the Submit branch. -/
  flush1Ok : Bool
  /-- first `.wait(None)` in the Submit branch. -/
  wait1Ok : Bool
  /-- `cmd.execute(self.window.queue.clone())`. -/
  execOk : Bool
  /-- second `then_signal_fence_and_flush()` in the Submit branch. -/
  flush2Ok : Bool
  /-- second `.wait(None)` in the Submit branch. -/
  wait2Ok : Bool
  /-- camera position after `cam.update(delta)` and event processing. -/
  newCamPos : Vec3
  /-- events delivered by `self.queue.poll` this iteration. -/
  events : List Event
deriving DecidableEq

/-- Outcome of one loop iteration: continue looping, leave the loop
(`break` after a quit event), or die (`panic!` / failed `.unwrap()`).
Each carries the trace of events the iteration emitted. -/
inductive StepResult where
  | cont (s : LoopState) (tr : List TraceEvent)
  | brk (s : LoopState) (tr : List TraceEvent)
  | panicked (msg : String) (tr : List TraceEvent)
deriving DecidableEq

/-- Prepend events emitted before the rest of the iteration ran. -/
def StepResult.withTrace (r : StepResult) (pre : List TraceEvent) : StepResult :=
  match r with
  | .cont s tr => .cont s (pre ++ tr)
  | .brk s tr => .brk s (pre ++ tr)
  | .panicked m tr => .panicked m (pre ++ tr)

/-- The diagnostic of the `_ => panic!(..)` arm of the receive match. -/
def unknownMsgDiag : String := "Unknown message from client_world, or it panicked"

/-- Diagnostic for a failed `.unwrap()` (the Rust payload is the
underlying error's Debug output; its exact text is not modelled). -/
def unwrapDiag : String := "called unwrap on an Err value"

/-- Diagnostic of `Err(err) => panic!(..)` on image acquisition. -/
def acquireDiag : String := "acquire error"

/-- is this event a resize? (`Event::Resize(_, _)` arm). -/
def isResize : Event → Bool
  | .Resize _ _ => true
  | _ => false

/-- is this event a quit? (`Event::Quit` arm). -/
def isQuit : Event → Bool
  | .Quit => true
  | _ => false

/-- Lines 174–188: `self.window.update()` (no observable model effect),
`self.cam.update(delta)` plus `self.queue.poll(..)` processing every event
into the camera (together: the camera position becomes `env.newCamPos`),
a resize event sets `recreate_swapchain`, a quit event sets `done`;
`if done { break }`. -/
def endStep (s : LoopState) (env : EnvInput) : StepResult :=
  let s1 := { s with camPos := env.newCamPos,
                     recreate_swapchain := s.recreate_swapchain || env.events.any isResize }
  if env.events.any isQuit then .brk s1 [] else .cont s1 []

/-- Lines 163–168, the Submit application barrier:
`future.then_signal_fence_and_flush().unwrap().wait(None).unwrap()`;
`future = Box::new(cmd.execute(queue).unwrap())`; `origin = o`;
`root_size = r`; the same flush-and-wait again; `future = now(device)`.
A `fenceWait` event is emitted when a blocking wait completes;
`writeExec` when the upload command is put on the queue. -/
def applySubmitStep (s : LoopState) (env : EnvInput) (c : Nat) (o : Vec3) (r : Rat) : StepResult :=
  if env.flush1Ok then
    if env.wait1Ok then
      if env.execOk then
        let s1 := { s with future := [GpuOp.write c], origin := o, root_size := r }
        if env.flush2Ok then
          if env.wait2Ok then
            (endStep { s1 with future := [] } env).withTrace
              [TraceEvent.fenceWait, TraceEvent.writeExec c, TraceEvent.fenceWait]
          else .panicked unwrapDiag [TraceEvent.fenceWait, TraceEvent.writeExec c]
        else .panicked unwrapDiag [TraceEvent.fenceWait, TraceEvent.writeExec c]
      else .panicked unwrapDiag [TraceEvent.fenceWait]
    else .panicked unwrapDiag []
  else .panicked unwrapDiag []

/-- Lines 161–172: `match self.world.1.try_recv()`. `Ok(Submit(cmd, o, r))`
applies the barrier; `Err(TryRecvError::Empty)` does nothing; the wildcard
arm (an `Ok(PlayerMove(_))` or `Err(TryRecvError::Disconnected)`) panics. -/
def recvStep (s : LoopState) (env : EnvInput) : StepResult :=
  match env.recvRes with
  | RecvRes.msg (ClientMessage.Submit c o r) =>
      (applySubmitStep s env c o r).withTrace [TraceEvent.recvSubmit c o r]
  | RecvRes.empty => endStep s env
  | _ => .panicked unknownMsgDiag []

/-- Line 160: `self.world.0.send(ClientMessage::PlayerMove(self.cam.pos())).unwrap()`. -/
def sendStep (s : LoopState) (env : EnvInput) : StepResult :=
  if env.sendOk then (recvStep s env).withTrace [TraceEvent.sendMove s.camPos]
  else .panicked unwrapDiag []

/-- Lines 116–158: compute push constants from the current
origin / root-size, build the one-time command buffer (five `.unwrap()`s),
chain it (`join(frame.acquire).then_execute(..).unwrap()
.then_swapchain_present(..).then_signal_fence_and_flush()`), and apply
the submission outcome policy: `Ok(f)` stores the chain; `OutOfDate` sets
`recreate_swapchain` and resets the future to `now`; any other error is
logged and the future reset to `now`, and the loop continues. -/
def drawStep (s : LoopState) (env : EnvInput) : StepResult :=
  let pcEv := TraceEvent.pushed s.origin s.root_size
  if env.cbPrimaryOk then
    if env.cbBeginOk then
      if env.cbDrawOk then
        if env.cbEndOk then
          if env.cbBuildOk then
            if env.thenExecOk then
              let chained := s.future ++ [GpuOp.draw, GpuOp.present]
              (match env.flushRes with
               | FlushRes.ok => sendStep { s with future := chained } env
               | FlushRes.outOfDate =>
                   sendStep { s with recreate_swapchain := true, future := [] } env
               | FlushRes.otherErr => sendStep { s with future := [] } env
              ).withTrace [pcEv, TraceEvent.drawSub]
            else .panicked unwrapDiag [pcEv]
          else .panicked unwrapDiag [pcEv]
        else .panicked unwrapDiag [pcEv]
      else .panicked unwrapDiag [pcEv]
    else .panicked unwrapDiag [pcEv]
  else .panicked unwrapDiag [pcEv]

/-- Lines 107–114: `match self.window.frame()`. `Ok` proceeds to drawing,
`Err(AcquireError::OutOfDate)` sets `recreate_swapchain` and `continue`s,
any other error panics. -/
def acquireStep (s : LoopState) (env : EnvInput) : StepResult :=
  match env.frameRes with
  | AcquireRes.ok => (drawStep s env).withTrace [TraceEvent.acquire]
  | AcquireRes.outOfDate => .cont { s with recreate_swapchain := true } [TraceEvent.acquire]
  | AcquireRes.otherErr => .panicked acquireDiag [TraceEvent.acquire]

/-- One full iteration of the `loop` body (lines 88–188). The diagnostic
counter `i = (i + 1) % 30` and the throughput print have no further
observable effect; `future.cleanup_finished()` reclaims host resources and
has no observable model effect. If `recreate_swapchain` is set,
`self.window.recreate()` runs before anything else; on failure the
iteration `continue`s with the flag still set, on success the flag is
cleared and the iteration proceeds to acquisition. -/
def stepBody (s : LoopState) (env : EnvInput) : StepResult :=
  let s1 := { s with i := (s.i + 1) % 30 }
  if s1.recreate_swapchain then
    if env.recreateOk then
      (acquireStep { s1 with recreate_swapchain := false } env).withTrace
        [TraceEvent.recreateCall]
    else .cont s1 [TraceEvent.recreateCall]
  else acquireStep s1 env

/-- Outcome of running the loop over a finite list of per-iteration
environments: still running (inputs exhausted), left via `break`, or the
process died in a panic. -/
inductive RunOut where
  | running (s : LoopState) (tr : List TraceEvent)
  | quitted (s : LoopState) (tr : List TraceEvent)
  | panicked (msg : String) (tr : List TraceEvent)
deriving DecidableEq

/-- Prepend a trace prefix to a run outcome. -/
def RunOut.withTrace (r : RunOut) (pre : List TraceEvent) : RunOut :=
  match r with
  | .running s tr => .running s (pre ++ tr)
  | .quitted s tr => .quitted s (pre ++ tr)
  | .panicked m tr => .panicked m (pre ++ tr)

/-- Run the loop over a list of per-iteration environments. -/
def run (s : LoopState) (envs : List EnvInput) : RunOut :=
  match envs with
  | [] => .running s []
  | env :: rest =>
    match stepBody s env with
    | .cont s1 tr => (run s1 rest).withTrace tr
    | .brk s1 tr => .quitted s1 tr
    | .panicked m tr => .panicked m tr

/-- The trace of a step result, regardless of how the step ended. -/
def resTrace : StepResult → List TraceEvent
  | .cont _ tr => tr
  | .brk _ tr => tr
  | .panicked _ tr => tr

/-- The trace of a run, regardless of how it ended. -/
def runTrace : RunOut → List TraceEvent
  | .running _ tr => tr
  | .quitted _ tr => tr
  | .panicked _ tr => tr

/-- Did the step kill the process, and with what diagnostic? -/
def panicDiag : StepResult → Option String
  | .panicked m _ => some m
  | _ => none

/-- the event is the submission of a draw command. -/
def isDrawSub : TraceEvent → Bool
  | .drawSub => true
  | _ => false

/-- the event is a write of the spatial-index buffer. -/
def isWriteExec : TraceEvent → Bool
  | .writeExec _ => true
  | _ => false

/-- the event is a blocking fence wait. -/
def isFenceWait : TraceEvent → Bool
  | .fenceWait => true
  | _ => false

/-- the event is a `PlayerMove` send. -/
def isSendMove : TraceEvent → Bool
  | .sendMove _ => true
  | _ => false

/-- the event is the receipt of a `Submit`. -/
def isRecvSubmit : TraceEvent → Bool
  | .recvSubmit _ _ _ => true
  | _ => false

/-- No-tear check over a trace. Device operations issued between two
blocking fence waits may overlap on the GPU; a draw could observe the
buffer mid-write exactly when a draw and a buffer write share a
wait-delimited segment. `noTearAux hasD hasW tr` scans the trace carrying
whether the current segment already holds a draw (`hasD`) or a write
(`hasW`), and fails if a segment ever holds both. -/
def noTearAux : Bool → Bool → List TraceEvent → Bool
  | _, _, [] => true
  | _, _, TraceEvent.fenceWait :: rest => noTearAux false false rest
  | _, hasW, TraceEvent.drawSub :: rest => !hasW && noTearAux true hasW rest
  | hasD, _, TraceEvent.writeExec _ :: rest => !hasD && noTearAux hasD true rest
  | hasD, hasW, _ :: rest => noTearAux hasD hasW rest

/-- A trace is tear-free when no wait-delimited segment holds both a draw
and a buffer write: every draw samples only fully-barrier-committed
buffer contents. -/
def noTear (tr : List TraceEvent) : Bool := noTearAux false false tr

/-- The continuation-safety property used to propagate `noTear` through a
run: relative to a continuation trace `k` whose open segment holds no
write, the result's trace (followed by `k` when the loop goes on) is
tear-free whatever draws the open segment already holds. -/
def SegOK (k : List TraceEvent) : StepResult → Prop
  | .cont _ tr => ∀ d, noTearAux d false (tr ++ k) = true
  | .brk _ tr => ∀ d, noTearAux d false (tr ++ k) = true
  | .panicked _ tr => ∀ d, noTearAux d false tr = true

/-- Reachability of the message-exchange step (line 160) within an
iteration: recreation does not `continue` the loop away, acquisition
succeeds, and the five command-buffer `.unwrap()`s and `then_execute`
succeed. The per-frame flush outcome is deliberately unconstrained: every
`FlushRes` falls through to the message exchange. -/
def reachesSend (s : LoopState) (env : EnvInput) : Prop :=
  (s.recreate_swapchain = false ∨ env.recreateOk = true) ∧
  env.frameRes = AcquireRes.ok ∧
  env.cbPrimaryOk = true ∧ env.cbBeginOk = true ∧ env.cbDrawOk = true ∧
  env.cbEndOk = true ∧ env.cbBuildOk = true ∧ env.thenExecOk = true

/-- The trace prefix contributed by the swapchain state machine: a
`recreateCall` when the flag was set at iteration entry. -/
def recreatePrefix (s : LoopState) : List TraceEvent :=
  if s.recreate_swapchain then [TraceEvent.recreateCall] else []

/-- The loop state as it stands at the message-exchange step (line 160),
assuming the iteration got there: the diagnostic counter advanced, the
recreate flag consumed, and the future / flag updated by the submission
outcome policy. -/
def midState (s : LoopState) (env : EnvInput) : LoopState :=
  let s1 := { s with i := (s.i + 1) % 30, recreate_swapchain := false }
  match env.flushRes with
  | FlushRes.ok => { s1 with future := s.future ++ [GpuOp.draw, GpuOp.present] }
  | FlushRes.outOfDate => { s1 with recreate_swapchain := true, future := [] }
  | FlushRes.otherErr => { s1 with future := [] }

/-- The trace emitted by an iteration up to (excluding) the message
exchange, when the iteration gets there. -/
def preTrace (s : LoopState) : List TraceEvent :=
  recreatePrefix s ++
    [TraceEvent.acquire, TraceEvent.pushed s.origin s.root_size, TraceEvent.drawSub]

/-- A sample loop state: empty future, flag clear, origin `(0,0,0)`,
root size `0`, camera at the origin (the configuration right after
`game_loop`'s prologue when the camera starts at zero). -/
def sEx : LoopState :=
  { future := [], recreate_swapchain := false, origin := (0, 0, 0),
    root_size := 0, camPos := (0, 0, 0), i := 0 }

/-- A sample environment where every fallible call succeeds and no
message or input event arrives. -/
def envAllOk : EnvInput :=
  { recreateOk := true, frameRes := AcquireRes.ok,
    cbPrimaryOk := true, cbBeginOk := true, cbDrawOk := true,
    cbEndOk := true, cbBuildOk := true, thenExecOk := true,
    flushRes := FlushRes.ok, sendOk := true, recvRes := RecvRes.empty,
    flush1Ok := true, wait1Ok := true, execOk := true,
    flush2Ok := true, wait2Ok := true,
    newCamPos := (0, 0, 0), events := [] }

/-- The environment of spec Scenario A: the worker answers with
`Submit(cmdA, origin=(0,0,0), rootSize=64.0)` and everything succeeds. -/
def envSubmitEx : EnvInput :=
  { envAllOk with recvRes := RecvRes.msg (ClientMessage.Submit 7 (0, 0, 0) 64) }

/-- Environment where acquisition reports a stale surface. -/
def envStaleEx : EnvInput := { envAllOk with frameRes := AcquireRes.outOfDate }

/-- Environment where a `PlayerMove` arrives on the worker-to-render
channel. -/
def envPlayerMoveEx : EnvInput :=
  { envAllOk with recvRes := RecvRes.msg (ClientMessage.PlayerMove (1, 2, 3)) }

/-- Environment where the worker-to-render channel is disconnected. -/
def envDisconnectedEx : EnvInput := { envAllOk with recvRes := RecvRes.disconnected }

/-- Environment where `.build()` of the command buffer fails. -/
def envCbFailEx : EnvInput := { envAllOk with cbBuildOk := false }

/-- The state after one fully successful, eventless iteration from
`sEx` under `envAllOk`. -/
def sExAfter : LoopState :=
  { future := [GpuOp.draw, GpuOp.present], recreate_swapchain := false,
    origin := (0, 0, 0), root_size := 0, camPos := (0, 0, 0), i := 1 }

/-- The trace of that iteration. -/
def trExAfter : List TraceEvent :=
  [TraceEvent.acquire, TraceEvent.pushed (0, 0, 0) 0, TraceEvent.drawSub,
   TraceEvent.sendMove (0, 0, 0)]

/- ------------------------------------------------------------------ -/
/- Theorems                                                           -/
/- ------------------------------------------------------------------ -/

@[simp]
theorem noTearAux_nil (d w : Bool) : noTearAux d w [] = true := rfl

@[simp]
theorem noTearAux_fenceWait (d w : Bool) (l : List TraceEvent) :
    noTearAux d w (TraceEvent.fenceWait :: l) = noTearAux false false l := rfl

@[simp]
theorem noTearAux_drawSub (d w : Bool) (l : List TraceEvent) :
    noTearAux d w (TraceEvent.drawSub :: l) = (!w && noTearAux true w l) := rfl

@[simp]
theorem noTearAux_writeExec (d w : Bool) (c : Nat) (l : List TraceEvent) :
    noTearAux d w (TraceEvent.writeExec c :: l) = (!d && noTearAux d true l) := rfl

@[simp]
theorem noTearAux_recreateCall (d w : Bool) (l : List TraceEvent) :
    noTearAux d w (TraceEvent.recreateCall :: l) = noTearAux d w l := rfl

@[simp]
theorem noTearAux_acquire (d w : Bool) (l : List TraceEvent) :
    noTearAux d w (TraceEvent.acquire :: l) = noTearAux d w l := rfl

@[simp]
theorem noTearAux_pushed (d w : Bool) (o : Vec3) (r : Rat) (l : List TraceEvent) :
    noTearAux d w (TraceEvent.pushed o r :: l) = noTearAux d w l := rfl

@[simp]
theorem noTearAux_sendMove (d w : Bool) (p : Vec3) (l : List TraceEvent) :
    noTearAux d w (TraceEvent.sendMove p :: l) = noTearAux d w l := rfl

@[simp]
theorem noTearAux_recvSubmit (d w : Bool) (c : Nat) (o : Vec3) (r : Rat)
    (l : List TraceEvent) :
    noTearAux d w (TraceEvent.recvSubmit c o r :: l) = noTearAux d w l := rfl

theorem endStep_segOK (s : LoopState) (env : EnvInput) (k : List TraceEvent)
    (hk : ∀ d, noTearAux d false k = true) : SegOK k (endStep s env) := by
  unfold endStep
  split
  · exact fun d => by simpa using hk d
  · exact fun d => by simpa using hk d

theorem applySubmitStep_segOK (s : LoopState) (env : EnvInput) (c : Nat)
    (o : Vec3) (r : Rat) (k : List TraceEvent)
    (hk : ∀ d, noTearAux d false k = true) :
    SegOK k (applySubmitStep s env c o r) := by
  unfold applySubmitStep
  cases hf1 : env.flush1Ok <;> simp only [if_true, if_false, Bool.false_eq_true]
  · exact fun d => rfl
  cases hw1 : env.wait1Ok <;> simp only [if_true, if_false, Bool.false_eq_true]
  · exact fun d => rfl
  cases hex : env.execOk <;> simp only [if_true, if_false, Bool.false_eq_true]
  · exact fun d => by simp
  cases hf2 : env.flush2Ok <;> simp only [if_true, if_false, Bool.false_eq_true]
  · exact fun d => by simp
  cases hw2 : env.wait2Ok <;> simp only [if_true, if_false, Bool.false_eq_true]
  · exact fun d => by simp
  unfold endStep
  split <;> (exact fun d => by simpa using hk false)

theorem segOK_withTrace_neutral (k : List TraceEvent) (e : TraceEvent)
    (r : StepResult)
    (hfw : isFenceWait e = false) (hds : isDrawSub e = false)
    (hwe : isWriteExec e = false) (h : SegOK k r) :
    SegOK k (r.withTrace [e]) := by
  cases r <;> cases e <;>
    simp_all [StepResult.withTrace, SegOK, isFenceWait, isDrawSub, isWriteExec]

theorem segOK_withTrace_pushDraw (k : List TraceEvent) (o : Vec3) (rs : Rat)
    (r : StepResult) (h : SegOK k r) :
    SegOK k (r.withTrace [TraceEvent.pushed o rs, TraceEvent.drawSub]) := by
  cases r <;> (exact fun d => by simpa using h true)

theorem recvStep_segOK (s : LoopState) (env : EnvInput) (k : List TraceEvent)
    (hk : ∀ d, noTearAux d false k = true) : SegOK k (recvStep s env) := by
  unfold recvStep
  cases henv : env.recvRes with
  | msg m =>
    cases m with
    | PlayerMove p => exact fun d => rfl
    | Submit c o r =>
      exact segOK_withTrace_neutral k _ _ rfl rfl rfl
        (applySubmitStep_segOK s env c o r k hk)
  | empty => exact endStep_segOK s env k hk
  | disconnected => exact fun d => rfl

theorem sendStep_segOK (s : LoopState) (env : EnvInput) (k : List TraceEvent)
    (hk : ∀ d, noTearAux d false k = true) : SegOK k (sendStep s env) := by
  unfold sendStep
  cases hs : env.sendOk <;> simp only [if_true, if_false, Bool.false_eq_true]
  · exact fun d => rfl
  · exact segOK_withTrace_neutral k _ _ rfl rfl rfl (recvStep_segOK s env k hk)

theorem drawStep_segOK (s : LoopState) (env : EnvInput) (k : List TraceEvent)
    (hk : ∀ d, noTearAux d false k = true) : SegOK k (drawStep s env) := by
  unfold drawStep
  cases h1 : env.cbPrimaryOk <;> simp only [if_true, if_false, Bool.false_eq_true]
  · exact fun d => by simp
  cases h2 : env.cbBeginOk <;> simp only [if_true, if_false, Bool.false_eq_true]
  · exact fun d => by simp
  cases h3 : env.cbDrawOk <;> simp only [if_true, if_false, Bool.false_eq_true]
  · exact fun d => by simp
  cases h4 : env.cbEndOk <;> simp only [if_true, if_false, Bool.false_eq_true]
  · exact fun d => by simp
  cases h5 : env.cbBuildOk <;> simp only [if_true, if_false, Bool.false_eq_true]
  · exact fun d => by simp
  cases h6 : env.thenExecOk <;> simp only [if_true, if_false, Bool.false_eq_true]
  · exact fun d => by simp
  cases hf : env.flushRes <;>
    exact segOK_withTrace_pushDraw k _ _ _ (sendStep_segOK _ env k hk)

theorem acquireStep_segOK (s : LoopState) (env : EnvInput) (k : List TraceEvent)
    (hk : ∀ d, noTearAux d false k = true) : SegOK k (acquireStep s env) := by
  unfold acquireStep
  cases hf : env.frameRes with
  | ok => exact segOK_withTrace_neutral k _ _ rfl rfl rfl (drawStep_segOK s env k hk)
  | outOfDate => exact fun d => by simpa using hk d
  | otherErr => exact fun d => by simp

theorem stepBody_segOK (s : LoopState) (env : EnvInput) (k : List TraceEvent)
    (hk : ∀ d, noTearAux d false k = true) : SegOK k (stepBody s env) := by
  unfold stepBody
  split
  · dsimp only
    split
    · exact segOK_withTrace_neutral k TraceEvent.recreateCall _ rfl rfl rfl
        (acquireStep_segOK _ env k hk)
    · exact acquireStep_segOK _ env k hk
  · dsimp only
    split
    · exact fun d => by simpa using hk d
    · exact acquireStep_segOK _ env k hk

theorem run_noTearAux (envs : List EnvInput) :
    ∀ (s : LoopState) (d : Bool), noTearAux d false (runTrace (run s envs)) = true := by
  induction envs with
  | nil => intro s d; simp [run, runTrace]
  | cons env rest ih =>
    intro s d
    have h0 : ∀ d', noTearAux d' false ([] : List TraceEvent) = true := fun _ => rfl
    unfold run
    cases hs : stepBody s env with
    | cont s1 tr =>
      have h := stepBody_segOK s env (runTrace (run s1 rest)) (ih s1)
      rw [hs] at h
      cases hr : run s1 rest <;> simpa [RunOut.withTrace, runTrace, hr] using h d
    | brk s1 tr =>
      have h := stepBody_segOK s env [] h0
      rw [hs] at h
      simpa [runTrace] using h d
    | panicked m tr =>
      have h := stepBody_segOK s env [] h0
      rw [hs] at h
      simpa [runTrace] using h d

@[simp]
theorem withTrace_nil (r : StepResult) : r.withTrace [] = r := by
  cases r <;> simp [StepResult.withTrace]

@[simp]
theorem withTrace_comp (r : StepResult) (a b : List TraceEvent) :
    (r.withTrace a).withTrace b = r.withTrace (b ++ a) := by
  cases r <;> simp [StepResult.withTrace]

theorem stepBody_recreateFail (s : LoopState) (env : EnvInput)
    (hsw : s.recreate_swapchain = true) (hro : env.recreateOk = false) :
    stepBody s env =
      StepResult.cont { s with i := (s.i + 1) % 30 } [TraceEvent.recreateCall] := by
  simp [stepBody, hsw, hro]

theorem stepBody_toAcquire (s : LoopState) (env : EnvInput)
    (h : s.recreate_swapchain = false ∨ env.recreateOk = true) :
    stepBody s env =
      (acquireStep { s with i := (s.i + 1) % 30, recreate_swapchain := false } env).withTrace
        (recreatePrefix s) := by
  obtain ⟨f, sw, o, r, cp, ii⟩ := s
  cases sw
  · simp [stepBody, recreatePrefix]
  · rcases h with h | h
    · simp at h
    · simp [stepBody, recreatePrefix, h]

theorem stepBody_toSend (s : LoopState) (env : EnvInput) (h : reachesSend s env) :
    stepBody s env = (sendStep (midState s env) env).withTrace (preTrace s) := by
  obtain ⟨hflag, hframe, h1, h2, h3, h4, h5, h6⟩ := h
  obtain ⟨f, sw, o, r, cp, ii⟩ := s
  rw [stepBody_toAcquire _ env hflag]
  cases hfl : env.flushRes <;>
    simp [acquireStep, hframe, drawStep, h1, h2, h3, h4, h5, h6, hfl,
      midState, preTrace]

@[simp]
theorem resTrace_withTrace (r : StepResult) (a : List TraceEvent) :
    resTrace (r.withTrace a) = a ++ resTrace r := by
  cases r <;> simp [StepResult.withTrace, resTrace]

theorem acquireStep_trace_head (s : LoopState) (env : EnvInput) :
    ∃ t, resTrace (acquireStep s env) = TraceEvent.acquire :: t := by
  cases hf : env.frameRes
  · exact ⟨resTrace (drawStep s env), by simp [acquireStep, hf]⟩
  · exact ⟨[], by simp [acquireStep, hf, resTrace]⟩
  · exact ⟨[], by simp [acquireStep, hf, resTrace]⟩

/-- C3: for all interleavings of the render thread and the worker thread —
modelled as all finite environment sequences, hence all possible timings
of `Submit` arrivals and all outcomes of the fallible calls — no draw
command shares a wait-delimited GPU segment with a write to the
SpatialIndexBuffer: every write is serialized behind the two-wait
barrier, so draws only ever sample fully-barrier-committed contents. -/
theorem no_tear_all_interleavings (s : LoopState) (envs : List EnvInput) :
    noTear (runTrace (run s envs)) = true :=
  run_noTearAux envs s false

/-- C6: if image acquisition reports a stale surface (`OutOfDate`), the
iteration sets the recreate flag and skips the rest — the trace holds no
draw, no send and no receive, and the state is otherwise unchanged; any
other acquisition failure panics. -/
theorem stale_acquire_skips_iteration (s : LoopState) (env : EnvInput)
    (hreach : s.recreate_swapchain = false ∨ env.recreateOk = true) :
    (env.frameRes = AcquireRes.outOfDate →
      stepBody s env =
        StepResult.cont { s with i := (s.i + 1) % 30, recreate_swapchain := true }
          (recreatePrefix s ++ [TraceEvent.acquire]) ∧
      (recreatePrefix s ++ [TraceEvent.acquire]).countP isDrawSub = 0 ∧
      (recreatePrefix s ++ [TraceEvent.acquire]).countP isSendMove = 0 ∧
      (recreatePrefix s ++ [TraceEvent.acquire]).countP isRecvSubmit = 0) ∧
    (env.frameRes = AcquireRes.otherErr →
      panicDiag (stepBody s env) = some acquireDiag) := by
  constructor
  · intro hf
    refine ⟨?_, ?_, ?_, ?_⟩
    · rw [stepBody_toAcquire s env hreach]
      simp [acquireStep, hf, StepResult.withTrace]
    · cases hsw : s.recreate_swapchain <;>
        simp [recreatePrefix, hsw, isDrawSub, List.countP_cons]
    · cases hsw : s.recreate_swapchain <;>
        simp [recreatePrefix, hsw, isSendMove, List.countP_cons]
    · cases hsw : s.recreate_swapchain <;>
        simp [recreatePrefix, hsw, isRecvSubmit, List.countP_cons]
  · intro hf
    rw [stepBody_toAcquire s env hreach]
    cases hre : recreatePrefix s <;>
      simp_all [acquireStep, hf, StepResult.withTrace, panicDiag]

theorem stepBody_flagTrue_trace_head (s : LoopState) (env : EnvInput)
    (hsw : s.recreate_swapchain = true) :
    (∃ rest, resTrace (stepBody s env) = TraceEvent.recreateCall :: rest) ∧
    (env.recreateOk = true →
      ∃ rest, resTrace (stepBody s env) =
        TraceEvent.recreateCall :: TraceEvent.acquire :: rest) := by
  cases hro : env.recreateOk
  · constructor
    · exact ⟨[], by rw [stepBody_recreateFail s env hsw hro]; simp [resTrace]⟩
    · intro h; exact absurd h (by simp)
  · have hta := stepBody_toAcquire s env (Or.inr hro)
    obtain ⟨t, ht⟩ :=
      acquireStep_trace_head { s with i := (s.i + 1) % 30, recreate_swapchain := false } env
    constructor
    · exact ⟨TraceEvent.acquire :: t,
        by rw [hta, resTrace_withTrace, ht]; simp [recreatePrefix, hsw]⟩
    · intro h
      exact ⟨t, by rw [hta, resTrace_withTrace, ht]; simp [recreatePrefix, hsw]⟩

/-- C8: with the recreate flag set at iteration entry, recreation runs
before any acquisition. After a stale surface on iteration N: iteration N
submits no draw and ends with the flag set; iteration N+1 calls
`recreate()` first; if recreation fails, N+1 does nothing else (camera,
Origin and RootSize unchanged, flag still set, retried later); if it
succeeds, the flag is cleared and acquisition follows (an eventless
successful iteration ends with the flag clear). -/
theorem swapchain_recovery (s : LoopState) (env1 env2 : EnvInput)
    (hreach : s.recreate_swapchain = false ∨ env1.recreateOk = true)
    (hstale : env1.frameRes = AcquireRes.outOfDate) :
    ∃ s1, stepBody s env1 = StepResult.cont s1 (recreatePrefix s ++ [TraceEvent.acquire]) ∧
      (recreatePrefix s ++ [TraceEvent.acquire]).countP isDrawSub = 0 ∧
      s1.recreate_swapchain = true ∧
      (∃ rest, resTrace (stepBody s1 env2) = TraceEvent.recreateCall :: rest) ∧
      (env2.recreateOk = false →
        ∃ s2, stepBody s1 env2 = StepResult.cont s2 [TraceEvent.recreateCall] ∧
          s2.camPos = s1.camPos ∧ s2.origin = s1.origin ∧
          s2.root_size = s1.root_size ∧ s2.recreate_swapchain = true) ∧
      (env2.recreateOk = true →
        ∃ rest, resTrace (stepBody s1 env2) =
          TraceEvent.recreateCall :: TraceEvent.acquire :: rest) := by
  refine ⟨{ s with i := (s.i + 1) % 30, recreate_swapchain := true }, ?_, ?_, rfl, ?_, ?_, ?_⟩
  · rw [stepBody_toAcquire s env1 hreach]
    simp [acquireStep, hstale, StepResult.withTrace]
  · cases hsw : s.recreate_swapchain <;>
      simp [recreatePrefix, hsw, isDrawSub, List.countP_cons]
  · exact (stepBody_flagTrue_trace_head _ env2 rfl).1
  · intro hro
    exact ⟨_, stepBody_recreateFail _ env2 rfl hro, rfl, rfl, rfl, rfl⟩
  · exact (stepBody_flagTrue_trace_head _ env2 rfl).2

@[simp]
theorem midState_camPos (s : LoopState) (env : EnvInput) :
    (midState s env).camPos = s.camPos := by
  cases h : env.flushRes <;> simp [midState, h]

@[simp]
theorem midState_origin (s : LoopState) (env : EnvInput) :
    (midState s env).origin = s.origin := by
  cases h : env.flushRes <;> simp [midState, h]

@[simp]
theorem midState_root_size (s : LoopState) (env : EnvInput) :
    (midState s env).root_size = s.root_size := by
  cases h : env.flushRes <;> simp [midState, h]

theorem preTrace_countP_fenceWait (s : LoopState) :
    (preTrace s).countP isFenceWait = 0 := by
  cases hsw : s.recreate_swapchain <;>
    simp [preTrace, recreatePrefix, hsw, isFenceWait, List.countP_cons]

theorem preTrace_countP_sendMove (s : LoopState) :
    (preTrace s).countP isSendMove = 0 := by
  cases hsw : s.recreate_swapchain <;>
    simp [preTrace, recreatePrefix, hsw, isSendMove, List.countP_cons]

theorem preTrace_countP_recvSubmit (s : LoopState) :
    (preTrace s).countP isRecvSubmit = 0 := by
  cases hsw : s.recreate_swapchain <;>
    simp [preTrace, recreatePrefix, hsw, isRecvSubmit, List.countP_cons]

/-- C1: an iteration that receives `Submit(cmd, origin, rootSize)` (and in
which no fallible call fails) performs exactly: blocking flush-and-wait of
the current chain, execution of the worker's upload command, a second
blocking flush-and-wait, and a reset of the pending GPU work to an empty
"now" token — with exactly two fence waits in the whole iteration,
appearing immediately around the upload. -/
theorem submit_two_wait_barrier (s : LoopState) (env : EnvInput)
    (c : Nat) (o : Vec3) (r : Rat)
    (hreach : reachesSend s env) (hsend : env.sendOk = true)
    (hrecv : env.recvRes = RecvRes.msg (ClientMessage.Submit c o r))
    (hf1 : env.flush1Ok = true) (hw1 : env.wait1Ok = true)
    (hex : env.execOk = true) (hf2 : env.flush2Ok = true) (hw2 : env.wait2Ok = true) :
    ∃ s' tr,
      (stepBody s env = StepResult.cont s' tr ∨ stepBody s env = StepResult.brk s' tr) ∧
      tr = (preTrace s ++ [TraceEvent.sendMove s.camPos]) ++
           [TraceEvent.recvSubmit c o r, TraceEvent.fenceWait,
            TraceEvent.writeExec c, TraceEvent.fenceWait] ∧
      tr.countP isFenceWait = 2 ∧
      s'.future = [] ∧ s'.origin = o ∧ s'.root_size = r := by
  have hts := stepBody_toSend s env hreach
  have h1 : sendStep (midState s env) env =
      (recvStep (midState s env) env).withTrace [TraceEvent.sendMove s.camPos] := by
    simp [sendStep, hsend]
  have h2 : recvStep (midState s env) env =
      (applySubmitStep (midState s env) env c o r).withTrace
        [TraceEvent.recvSubmit c o r] := by
    simp [recvStep, hrecv]
  have h3 : applySubmitStep (midState s env) env c o r =
      (endStep { midState s env with future := [], origin := o, root_size := r } env).withTrace
        [TraceEvent.fenceWait, TraceEvent.writeExec c, TraceEvent.fenceWait] := by
    simp [applySubmitStep, hf1, hw1, hex, hf2, hw2]
  cases hq : env.events.any isQuit
  · refine ⟨{ midState s env with
                future := [],
                origin := o,
                root_size := r,
                camPos := env.newCamPos,
                recreate_swapchain := (midState s env).recreate_swapchain || env.events.any isResize },
      (preTrace s ++ [TraceEvent.sendMove s.camPos]) ++
        [TraceEvent.recvSubmit c o r, TraceEvent.fenceWait,
         TraceEvent.writeExec c, TraceEvent.fenceWait],
      Or.inl ?_, rfl, ?_, rfl, rfl, rfl⟩
    · rw [hts, h1, h2, h3]
      simp [endStep, hq, StepResult.withTrace]
    · simp [List.countP_append, preTrace_countP_fenceWait, isFenceWait, List.countP_cons]
  · refine ⟨{ midState s env with
                future := [],
                origin := o,
                root_size := r,
                camPos := env.newCamPos,
                recreate_swapchain := (midState s env).recreate_swapchain || env.events.any isResize },
      (preTrace s ++ [TraceEvent.sendMove s.camPos]) ++
        [TraceEvent.recvSubmit c o r, TraceEvent.fenceWait,
         TraceEvent.writeExec c, TraceEvent.fenceWait],
      Or.inr ?_, rfl, ?_, rfl, rfl, rfl⟩
    · rw [hts, h1, h2, h3]
      simp [endStep, hq, StepResult.withTrace]
    · simp [List.countP_append, preTrace_countP_fenceWait, isFenceWait, List.countP_cons]

@[simp]
theorem panicDiag_withTrace (r : StepResult) (a : List TraceEvent) :
    panicDiag (r.withTrace a) = panicDiag r := by
  cases r <;> simp [StepResult.withTrace, panicDiag]

@[simp]
theorem panicDiag_cont (s : LoopState) (tr : List TraceEvent) :
    panicDiag (StepResult.cont s tr) = none := rfl

@[simp]
theorem panicDiag_brk (s : LoopState) (tr : List TraceEvent) :
    panicDiag (StepResult.brk s tr) = none := rfl

@[simp]
theorem panicDiag_panicked (m : String) (tr : List TraceEvent) :
    panicDiag (StepResult.panicked m tr) = some m := rfl

@[simp]
theorem resTrace_endStep (s : LoopState) (env : EnvInput) :
    resTrace (endStep s env) = [] := by
  unfold endStep
  split <;> rfl

@[simp]
theorem panicDiag_endStep (s : LoopState) (env : EnvInput) :
    panicDiag (endStep s env) = none := by
  unfold endStep
  split <;> rfl

theorem preTrace_pushed (s : LoopState) (po : Vec3) (pr : Rat)
    (h : TraceEvent.pushed po pr ∈ preTrace s) : po = s.origin ∧ pr = s.root_size := by
  cases hsw : s.recreate_swapchain <;>
    simp [preTrace, recreatePrefix, hsw] at h <;> exact h

theorem drawStep_panic_of_cbFail (s : LoopState) (env : EnvInput)
    (hfail : env.cbPrimaryOk = false ∨ env.cbBeginOk = false ∨ env.cbDrawOk = false ∨
      env.cbEndOk = false ∨ env.cbBuildOk = false ∨ env.thenExecOk = false) :
    drawStep s env =
      StepResult.panicked unwrapDiag [TraceEvent.pushed s.origin s.root_size] := by
  unfold drawStep
  rcases hfail with h | h | h | h | h | h <;> simp [h]

theorem applySubmitStep_panic_of_barrierFail (s : LoopState) (env : EnvInput)
    (c : Nat) (o : Vec3) (r : Rat)
    (hfail : env.flush1Ok = false ∨ env.wait1Ok = false ∨ env.execOk = false ∨
      env.flush2Ok = false ∨ env.wait2Ok = false) :
    panicDiag (applySubmitStep s env c o r) = some unwrapDiag := by
  unfold applySubmitStep
  rcases hfail with h | h | h | h | h <;>
    simp [h, apply_ite panicDiag]

theorem applySubmitStep_countP_sendMove (s : LoopState) (env : EnvInput)
    (c : Nat) (o : Vec3) (r : Rat) :
    (resTrace (applySubmitStep s env c o r)).countP isSendMove = 0 := by
  unfold applySubmitStep
  cases h1 : env.flush1Ok
  · simp [resTrace]
  cases h2 : env.wait1Ok
  · simp [resTrace]
  cases h3 : env.execOk
  · simp [resTrace, List.countP_cons, isSendMove]
  cases h4 : env.flush2Ok
  · simp [resTrace, List.countP_cons, isSendMove]
  cases h5 : env.wait2Ok
  · simp [resTrace, List.countP_cons, isSendMove]
  simp [List.countP_cons, isSendMove]

theorem recvStep_countP_sendMove (s : LoopState) (env : EnvInput) :
    (resTrace (recvStep s env)).countP isSendMove = 0 := by
  unfold recvStep
  cases hrv : env.recvRes with
  | msg m =>
    cases m with
    | PlayerMove p => simp [resTrace]
    | Submit c o r =>
      simp [List.countP_append, List.countP_cons, isSendMove,
        applySubmitStep_countP_sendMove s env c o r]
  | empty => simp
  | disconnected => simp [resTrace]

/-- C5: every iteration that reaches the message-exchange step sends
exactly one `PlayerMove`, carrying the camera position as sampled at that
point (it is only advanced later in the iteration); a send failure (peer
channel closed) kills the process. -/
theorem one_move_per_iteration (s : LoopState) (env : EnvInput)
    (hreach : reachesSend s env) :
    (env.sendOk = true →
      (resTrace (stepBody s env)).countP isSendMove = 1 ∧
      TraceEvent.sendMove s.camPos ∈ resTrace (stepBody s env)) ∧
    (env.sendOk = false → panicDiag (stepBody s env) = some unwrapDiag) := by
  have hts := stepBody_toSend s env hreach
  constructor
  · intro hso
    rw [hts]
    constructor
    · simp [sendStep, hso, List.countP_append, preTrace_countP_sendMove,
        List.countP_cons, isSendMove, recvStep_countP_sendMove]
    · simp [sendStep, hso]
  · intro hso
    rw [hts]
    simp [sendStep, hso]

/-- C4: any received message shape other than a `Submit` — in particular
a `PlayerMove` arriving on the worker-to-render channel — falls into the
wildcard arm and kills the process with the protocol-violation
diagnostic; an empty channel leaves Origin and RootSize unchanged and the
iteration continues. -/
theorem protocol_strictness (s : LoopState) (env : EnvInput)
    (hreach : reachesSend s env) (hsend : env.sendOk = true) :
    (∀ p, env.recvRes = RecvRes.msg (ClientMessage.PlayerMove p) →
      panicDiag (stepBody s env) = some unknownMsgDiag) ∧
    (env.recvRes = RecvRes.empty →
      ∃ s' tr,
        (stepBody s env = StepResult.cont s' tr ∨ stepBody s env = StepResult.brk s' tr) ∧
        s'.origin = s.origin ∧ s'.root_size = s.root_size) := by
  have hts := stepBody_toSend s env hreach
  constructor
  · intro p hp
    rw [hts]
    simp [sendStep, hsend, recvStep, hp]
  · intro hrv
    cases hq : env.events.any isQuit
    · refine ⟨{ midState s env with
                  camPos := env.newCamPos,
                  recreate_swapchain := (midState s env).recreate_swapchain ||
                    env.events.any isResize },
        preTrace s ++ [TraceEvent.sendMove s.camPos], Or.inl ?_, by simp, by simp⟩
      rw [hts]
      simp [sendStep, hsend, recvStep, hrv, endStep, hq, StepResult.withTrace]
    · refine ⟨{ midState s env with
                  camPos := env.newCamPos,
                  recreate_swapchain := (midState s env).recreate_swapchain ||
                    env.events.any isResize },
        preTrace s ++ [TraceEvent.sendMove s.camPos], Or.inr ?_, by simp, by simp⟩
      rw [hts]
      simp [sendStep, hsend, recvStep, hrv, endStep, hq, StepResult.withTrace]

/-- C9: a disconnected worker-to-render channel
(`Err(TryRecvError::Disconnected)`) is caught by the same wildcard arm as
an unknown message shape and kills the process with the same diagnostic,
rather than continuing with unchanged Origin/RootSize. -/
theorem disconnected_channel_fatal (s : LoopState) (env : EnvInput)
    (hreach : reachesSend s env) (hsend : env.sendOk = true)
    (hdisc : env.recvRes = RecvRes.disconnected) :
    panicDiag (stepBody s env) = some unknownMsgDiag := by
  rw [stepBody_toSend s env hreach]
  simp [sendStep, hsend, recvStep, hdisc]

/-- C7: the submission outcome policy — a successful flush stores the
resulting chain as the current PendingGpuWork; a surface-stale flush
failure sets the recreate flag and resets the pending work to an empty
"now" token; any other flush failure resets the pending work to empty and
the loop continues: no flush outcome kills the process. -/
theorem submission_outcome_policy (s : LoopState) (env : EnvInput)
    (hreach : reachesSend s env) (hsend : env.sendOk = true)
    (hrecv : env.recvRes = RecvRes.empty) :
    ∃ s' tr,
      (stepBody s env = StepResult.cont s' tr ∨ stepBody s env = StepResult.brk s' tr) ∧
      (env.flushRes = FlushRes.ok →
        s'.future = s.future ++ [GpuOp.draw, GpuOp.present]) ∧
      (env.flushRes = FlushRes.outOfDate →
        s'.future = [] ∧ s'.recreate_swapchain = true) ∧
      (env.flushRes = FlushRes.otherErr → s'.future = []) := by
  have hts := stepBody_toSend s env hreach
  cases hq : env.events.any isQuit
  · refine ⟨{ midState s env with
                camPos := env.newCamPos,
                recreate_swapchain := (midState s env).recreate_swapchain ||
                  env.events.any isResize },
      preTrace s ++ [TraceEvent.sendMove s.camPos], Or.inl ?_, ?_, ?_, ?_⟩
    · rw [hts]
      simp [sendStep, hsend, recvStep, hrecv, endStep, hq, StepResult.withTrace]
    · intro hfl; simp [midState, hfl]
    · intro hfl; simp [midState, hfl]
    · intro hfl; simp [midState, hfl]
  · refine ⟨{ midState s env with
                camPos := env.newCamPos,
                recreate_swapchain := (midState s env).recreate_swapchain ||
                  env.events.any isResize },
      preTrace s ++ [TraceEvent.sendMove s.camPos], Or.inr ?_, ?_, ?_, ?_⟩
    · rw [hts]
      simp [sendStep, hsend, recvStep, hrecv, endStep, hq, StepResult.withTrace]
    · intro hfl; simp [midState, hfl]
    · intro hfl; simp [midState, hfl]
    · intro hfl; simp [midState, hfl]

/-- C10: despite the best-effort policy for per-frame submission and
presentation failures, every `.unwrap()` during command-buffer
construction or chaining (primary allocation, begin render pass, draw,
end render pass, build, then-execute), and every failure inside the
Submit-application barrier (either blocking flush-and-wait, or executing
the worker's upload command), kills the process immediately. -/
theorem construction_and_barrier_failures_fatal (s : LoopState) (env : EnvInput)
    (hacq : s.recreate_swapchain = false ∨ env.recreateOk = true)
    (hframe : env.frameRes = AcquireRes.ok) :
    ((env.cbPrimaryOk = false ∨ env.cbBeginOk = false ∨ env.cbDrawOk = false ∨
        env.cbEndOk = false ∨ env.cbBuildOk = false ∨ env.thenExecOk = false) →
      panicDiag (stepBody s env) = some unwrapDiag) ∧
    (∀ c o r, env.cbPrimaryOk = true → env.cbBeginOk = true → env.cbDrawOk = true →
      env.cbEndOk = true → env.cbBuildOk = true → env.thenExecOk = true →
      env.sendOk = true → env.recvRes = RecvRes.msg (ClientMessage.Submit c o r) →
      (env.flush1Ok = false ∨ env.wait1Ok = false ∨ env.execOk = false ∨
        env.flush2Ok = false ∨ env.wait2Ok = false) →
      panicDiag (stepBody s env) = some unwrapDiag) := by
  constructor
  · intro hfail
    rw [stepBody_toAcquire s env hacq]
    have hdp := drawStep_panic_of_cbFail
      { s with i := (s.i + 1) % 30, recreate_swapchain := false } env hfail
    simp [acquireStep, hframe, hdp]
  · intro c o r h1 h2 h3 h4 h5 h6 hsend hrecv hfail
    rw [stepBody_toSend s env ⟨hacq, hframe, h1, h2, h3, h4, h5, h6⟩]
    simp [sendStep, hsend, recvStep, hrecv,
      applySubmitStep_panic_of_barrierFail _ env c o r hfail]

/-- C2: Origin and RootSize are mutated only when a `Submit` is applied,
and then in lockstep to exactly the received pair — never a mix of old
and new; at most one `Submit` is consumed (and applied) per iteration,
and every push-constant computation of an iteration uses the
Origin/RootSize pair the iteration started with (hence, right after an
applied `Submit`, exactly the received pair). -/
theorem origin_root_size_lockstep (s : LoopState) (env : EnvInput)
    (s' : LoopState) (tr : List TraceEvent)
    (h : stepBody s env = StepResult.cont s' tr ∨ stepBody s env = StepResult.brk s' tr) :
    ((tr.countP isRecvSubmit = 0 ∧ s'.origin = s.origin ∧ s'.root_size = s.root_size) ∨
      (∃ c o r, env.recvRes = RecvRes.msg (ClientMessage.Submit c o r) ∧
        tr.countP isRecvSubmit = 1 ∧ s'.origin = o ∧ s'.root_size = r)) ∧
    (∀ po pr, TraceEvent.pushed po pr ∈ tr → po = s.origin ∧ pr = s.root_size) := by
  by_cases hskip : s.recreate_swapchain = true ∧ env.recreateOk = false
  · obtain ⟨hsw, hro⟩ := hskip
    rw [stepBody_recreateFail s env hsw hro] at h
    rcases h with h | h
    · simp only [StepResult.cont.injEq] at h
      obtain ⟨h1, h2⟩ := h
      subst h1
      subst h2
      refine ⟨Or.inl ⟨by simp [isRecvSubmit], rfl, rfl⟩, ?_⟩
      intro po pr hm
      simp at hm
    · simp at h
  · have hreach1 : s.recreate_swapchain = false ∨ env.recreateOk = true := by
      cases hsw : s.recreate_swapchain
      · exact Or.inl rfl
      · cases hro : env.recreateOk
        · exact absurd ⟨hsw, hro⟩ hskip
        · exact Or.inr rfl
    cases hfr : env.frameRes with
    | outOfDate =>
      rw [stepBody_toAcquire s env hreach1] at h
      simp only [acquireStep, hfr, StepResult.withTrace] at h
      rcases h with h | h
      · simp only [StepResult.cont.injEq] at h
        obtain ⟨h1, h2⟩ := h
        subst h1
        subst h2
        constructor
        · refine Or.inl ⟨?_, rfl, rfl⟩
          cases hsw : s.recreate_swapchain <;>
            simp [recreatePrefix, hsw, isRecvSubmit, List.countP_cons]
        · intro po pr hm
          cases hsw : s.recreate_swapchain <;>
            simp [recreatePrefix, hsw] at hm
      · simp at h
    | otherErr =>
      rw [stepBody_toAcquire s env hreach1] at h
      simp only [acquireStep, hfr, StepResult.withTrace] at h
      rcases h with h | h <;> simp at h
    | ok =>
      cases hc1 : env.cbPrimaryOk
      · rw [stepBody_toAcquire s env hreach1] at h
        simp [acquireStep, hfr, drawStep, hc1, StepResult.withTrace] at h
      cases hc2 : env.cbBeginOk
      · rw [stepBody_toAcquire s env hreach1] at h
        simp [acquireStep, hfr, drawStep, hc1, hc2, StepResult.withTrace] at h
      cases hc3 : env.cbDrawOk
      · rw [stepBody_toAcquire s env hreach1] at h
        simp [acquireStep, hfr, drawStep, hc1, hc2, hc3, StepResult.withTrace] at h
      cases hc4 : env.cbEndOk
      · rw [stepBody_toAcquire s env hreach1] at h
        simp [acquireStep, hfr, drawStep, hc1, hc2, hc3, hc4, StepResult.withTrace] at h
      cases hc5 : env.cbBuildOk
      · rw [stepBody_toAcquire s env hreach1] at h
        simp [acquireStep, hfr, drawStep, hc1, hc2, hc3, hc4, hc5,
          StepResult.withTrace] at h
      cases hc6 : env.thenExecOk
      · rw [stepBody_toAcquire s env hreach1] at h
        simp [acquireStep, hfr, drawStep, hc1, hc2, hc3, hc4, hc5, hc6,
          StepResult.withTrace] at h
      rw [stepBody_toSend s env ⟨hreach1, hfr, hc1, hc2, hc3, hc4, hc5, hc6⟩] at h
      cases hso : env.sendOk
      · simp [sendStep, hso, StepResult.withTrace] at h
      cases hrv : env.recvRes with
      | empty =>
        cases hq : env.events.any isQuit <;>
          simp [sendStep, hso, recvStep, hrv, endStep, hq, StepResult.withTrace] at h <;>
          obtain ⟨h1, h2⟩ := h <;>
          subst h1 <;>
          subst h2 <;>
          refine ⟨Or.inl ⟨?_, by simp, by simp⟩, ?_⟩
        · simp [List.countP_append, preTrace_countP_recvSubmit, isRecvSubmit,
            List.countP_cons]
        · intro po pr hm
          rcases List.mem_append.1 hm with hm | hm
          · exact preTrace_pushed s po pr hm
          · simp at hm
        · simp [List.countP_append, preTrace_countP_recvSubmit, isRecvSubmit,
            List.countP_cons]
        · intro po pr hm
          rcases List.mem_append.1 hm with hm | hm
          · exact preTrace_pushed s po pr hm
          · simp at hm
      | disconnected =>
        simp [sendStep, hso, recvStep, hrv, StepResult.withTrace] at h
      | msg m =>
        cases m with
        | PlayerMove p =>
          simp [sendStep, hso, recvStep, hrv, StepResult.withTrace] at h
        | Submit c o r =>
          cases hb1 : env.flush1Ok
          · simp [sendStep, hso, recvStep, hrv, applySubmitStep, hb1,
              StepResult.withTrace] at h
          cases hb2 : env.wait1Ok
          · simp [sendStep, hso, recvStep, hrv, applySubmitStep, hb1, hb2,
              StepResult.withTrace] at h
          cases hb3 : env.execOk
          · simp [sendStep, hso, recvStep, hrv, applySubmitStep, hb1, hb2, hb3,
              StepResult.withTrace] at h
          cases hb4 : env.flush2Ok
          · simp [sendStep, hso, recvStep, hrv, applySubmitStep, hb1, hb2, hb3,
              hb4, StepResult.withTrace] at h
          cases hb5 : env.wait2Ok
          · simp [sendStep, hso, recvStep, hrv, applySubmitStep, hb1, hb2, hb3,
              hb4, hb5, StepResult.withTrace] at h
          cases hq : env.events.any isQuit <;>
            simp [sendStep, hso, recvStep, hrv, applySubmitStep, hb1, hb2, hb3,
              hb4, hb5, endStep, hq, StepResult.withTrace] at h <;>
            obtain ⟨h1, h2⟩ := h <;>
            subst h1 <;>
            subst h2 <;>
            refine ⟨Or.inr ⟨c, o, r, rfl, ?_, by simp, by simp⟩, ?_⟩
          · simp [List.countP_append, preTrace_countP_recvSubmit, isRecvSubmit,
              List.countP_cons]
          · intro po pr hm
            rcases List.mem_append.1 hm with hm | hm
            · exact preTrace_pushed s po pr hm
            · simp at hm
          · simp [List.countP_append, preTrace_countP_recvSubmit, isRecvSubmit,
              List.countP_cons]
          · intro po pr hm
            rcases List.mem_append.1 hm with hm | hm
            · exact preTrace_pushed s po pr hm
            · simp at hm

/-- Witness for C1 at Scenario A: worker answers
`Submit(7, (0,0,0), 64)` and every call succeeds. -/
theorem submit_two_wait_barrier_witness :
    ∃ s' tr,
      (stepBody sEx envSubmitEx = StepResult.cont s' tr ∨
        stepBody sEx envSubmitEx = StepResult.brk s' tr) ∧
      tr = (preTrace sEx ++ [TraceEvent.sendMove sEx.camPos]) ++
           [TraceEvent.recvSubmit 7 (0, 0, 0) 64, TraceEvent.fenceWait,
            TraceEvent.writeExec 7, TraceEvent.fenceWait] ∧
      tr.countP isFenceWait = 2 ∧
      s'.future = [] ∧ s'.origin = (0, 0, 0) ∧ s'.root_size = 64 :=
  submit_two_wait_barrier sEx envSubmitEx 7 (0, 0, 0) 64
    ⟨Or.inl rfl, rfl, rfl, rfl, rfl, rfl, rfl, rfl⟩ rfl rfl rfl rfl rfl rfl rfl

/-- Witness for C2 at a fully successful, messageless iteration. -/
theorem origin_root_size_lockstep_witness :
    ((trExAfter.countP isRecvSubmit = 0 ∧ sExAfter.origin = sEx.origin ∧
        sExAfter.root_size = sEx.root_size) ∨
      (∃ c o r, envAllOk.recvRes = RecvRes.msg (ClientMessage.Submit c o r) ∧
        trExAfter.countP isRecvSubmit = 1 ∧ sExAfter.origin = o ∧
        sExAfter.root_size = r)) ∧
    (∀ po pr, TraceEvent.pushed po pr ∈ trExAfter →
      po = sEx.origin ∧ pr = sEx.root_size) :=
  origin_root_size_lockstep sEx envAllOk sExAfter trExAfter (Or.inl rfl)

/-- Witness for C4 with a stray `PlayerMove` on the worker-to-render
channel. -/
theorem protocol_strictness_witness :
    (∀ p, envPlayerMoveEx.recvRes = RecvRes.msg (ClientMessage.PlayerMove p) →
      panicDiag (stepBody sEx envPlayerMoveEx) = some unknownMsgDiag) ∧
    (envPlayerMoveEx.recvRes = RecvRes.empty →
      ∃ s' tr,
        (stepBody sEx envPlayerMoveEx = StepResult.cont s' tr ∨
          stepBody sEx envPlayerMoveEx = StepResult.brk s' tr) ∧
        s'.origin = sEx.origin ∧ s'.root_size = sEx.root_size) :=
  protocol_strictness sEx envPlayerMoveEx
    ⟨Or.inl rfl, rfl, rfl, rfl, rfl, rfl, rfl, rfl⟩ rfl

/-- Witness for C5 at a fully successful iteration. -/
theorem one_move_per_iteration_witness :
    (envAllOk.sendOk = true →
      (resTrace (stepBody sEx envAllOk)).countP isSendMove = 1 ∧
      TraceEvent.sendMove sEx.camPos ∈ resTrace (stepBody sEx envAllOk)) ∧
    (envAllOk.sendOk = false →
      panicDiag (stepBody sEx envAllOk) = some unwrapDiag) :=
  one_move_per_iteration sEx envAllOk ⟨Or.inl rfl, rfl, rfl, rfl, rfl, rfl, rfl, rfl⟩

/-- Witness for C6 with a stale surface at acquisition. -/
theorem stale_acquire_skips_iteration_witness :
    (envStaleEx.frameRes = AcquireRes.outOfDate →
      stepBody sEx envStaleEx =
        StepResult.cont { sEx with i := (sEx.i + 1) % 30, recreate_swapchain := true }
          (recreatePrefix sEx ++ [TraceEvent.acquire]) ∧
      (recreatePrefix sEx ++ [TraceEvent.acquire]).countP isDrawSub = 0 ∧
      (recreatePrefix sEx ++ [TraceEvent.acquire]).countP isSendMove = 0 ∧
      (recreatePrefix sEx ++ [TraceEvent.acquire]).countP isRecvSubmit = 0) ∧
    (envStaleEx.frameRes = AcquireRes.otherErr →
      panicDiag (stepBody sEx envStaleEx) = some acquireDiag) :=
  stale_acquire_skips_iteration sEx envStaleEx (Or.inl rfl)

/-- Witness for C7 at a fully successful iteration. -/
theorem submission_outcome_policy_witness :
    ∃ s' tr,
      (stepBody sEx envAllOk = StepResult.cont s' tr ∨
        stepBody sEx envAllOk = StepResult.brk s' tr) ∧
      (envAllOk.flushRes = FlushRes.ok →
        s'.future = sEx.future ++ [GpuOp.draw, GpuOp.present]) ∧
      (envAllOk.flushRes = FlushRes.outOfDate →
        s'.future = [] ∧ s'.recreate_swapchain = true) ∧
      (envAllOk.flushRes = FlushRes.otherErr → s'.future = []) :=
  submission_outcome_policy sEx envAllOk
    ⟨Or.inl rfl, rfl, rfl, rfl, rfl, rfl, rfl, rfl⟩ rfl rfl

/-- Witness for C8: Scenario B — stale surface on iteration N, successful
recreation on iteration N+1. -/
theorem swapchain_recovery_witness :
    ∃ s1, stepBody sEx envStaleEx = StepResult.cont s1
        (recreatePrefix sEx ++ [TraceEvent.acquire]) ∧
      (recreatePrefix sEx ++ [TraceEvent.acquire]).countP isDrawSub = 0 ∧
      s1.recreate_swapchain = true ∧
      (∃ rest, resTrace (stepBody s1 envAllOk) = TraceEvent.recreateCall :: rest) ∧
      (envAllOk.recreateOk = false →
        ∃ s2, stepBody s1 envAllOk = StepResult.cont s2 [TraceEvent.recreateCall] ∧
          s2.camPos = s1.camPos ∧ s2.origin = s1.origin ∧
          s2.root_size = s1.root_size ∧ s2.recreate_swapchain = true) ∧
      (envAllOk.recreateOk = true →
        ∃ rest, resTrace (stepBody s1 envAllOk) =
          TraceEvent.recreateCall :: TraceEvent.acquire :: rest) :=
  swapchain_recovery sEx envStaleEx envAllOk (Or.inl rfl) rfl

/-- Witness for C9 with a disconnected worker channel. -/
theorem disconnected_channel_fatal_witness :
    panicDiag (stepBody sEx envDisconnectedEx) = some unknownMsgDiag :=
  disconnected_channel_fatal sEx envDisconnectedEx
    ⟨Or.inl rfl, rfl, rfl, rfl, rfl, rfl, rfl, rfl⟩ rfl rfl

/-- Witness for C10 with a failing command-buffer `.build()`. -/
theorem construction_and_barrier_failures_fatal_witness :
    ((envCbFailEx.cbPrimaryOk = false ∨ envCbFailEx.cbBeginOk = false ∨
        envCbFailEx.cbDrawOk = false ∨ envCbFailEx.cbEndOk = false ∨
        envCbFailEx.cbBuildOk = false ∨ envCbFailEx.thenExecOk = false) →
      panicDiag (stepBody sEx envCbFailEx) = some unwrapDiag) ∧
    (∀ c o r, envCbFailEx.cbPrimaryOk = true → envCbFailEx.cbBeginOk = true →
      envCbFailEx.cbDrawOk = true → envCbFailEx.cbEndOk = true →
      envCbFailEx.cbBuildOk = true → envCbFailEx.thenExecOk = true →
      envCbFailEx.sendOk = true →
      envCbFailEx.recvRes = RecvRes.msg (ClientMessage.Submit c o r) →
      (envCbFailEx.flush1Ok = false ∨ envCbFailEx.wait1Ok = false ∨
        envCbFailEx.execOk = false ∨ envCbFailEx.flush2Ok = false ∨
        envCbFailEx.wait2Ok = false) →
      panicDiag (stepBody sEx envCbFailEx) = some unwrapDiag) :=
  construction_and_barrier_failures_fatal sEx envCbFailEx (Or.inl rfl) rfl

end Quanta
